import Mathlib

/-!
Verification of the glyph outline validation script (`validate.py`).

The script is a read-only analysis pass over a font's outline data.  We give a
shallow embedding of the outline data model the script consumes (glyphs,
layers, paths, nodes, segments, anchors) and of each of the script's checks
(a)–(g), staying as close as possible to the Python source.  Real-valued
coordinates and lengths are embedded as rationals; display-only formatting
(`fmt_coord`, `round(x, 1)` in messages) is presentational and is not part of
the structured issue records.
-/

namespace Validate

/-- A point of a path, as exposed by the host: coordinates plus the node type
string; the script only ever tests `node.type != "offcurve"`. -/
structure GNode where
  x : ℚ
  y : ℚ
  typ : String
deriving DecidableEq

/-- A segment, as exposed by the host: the script reads its bounding-box
width/height, its geometric length (`None` when it cannot be calculated), and
its two boundary points (`none` models both a `None` return and an
exception raised by `firstPoint()`/`lastPoint()`). -/
structure Segment where
  width : ℚ
  height : ℚ
  len : Option ℚ
  fstPt : Option (ℚ × ℚ)
  lstPt : Option (ℚ × ℚ)
deriving DecidableEq

/-- A bounding box, origin plus size. -/
structure Rect where
  x : ℚ
  y : ℚ
  w : ℚ
  h : ℚ
deriving DecidableEq

/-- A path: ordered node list, the `closed` flag, the host-derived segment
list, and the host-provided bounding box (`none` for an empty outline). -/
structure GPath where
  nodes : List GNode
  closed : Bool
  segments : List Segment
  bounds : Option Rect
deriving DecidableEq

/-- An anchor: optional name and a position. -/
structure Anchor where
  name : Option String
  pos : ℚ × ℚ
deriving DecidableEq

/-- A layer: ordered paths, ordered anchors, and the layer bounding box
(`none` when the layer has no outline). -/
structure Layer where
  paths : List GPath
  anchors : List Anchor
  bounds : Option Rect
deriving DecidableEq

/-- A glyph with its single analyzed layer (`glyph.layers[masterID]`). -/
structure Glyph where
  name : String
  layer : Layer
deriving DecidableEq

/-- The font: the glyph list the script iterates over. -/
structure Font where
  glyphs : List Glyph
deriving DecidableEq

/-- Structured issue records, one constructor per message the script emits.
The payloads are the data interpolated into the message strings. -/
inductive Issue where
  | smallSegment (a b : Option (ℚ × ℚ)) (w h : ℚ)
  | suspiciousLength (ends : Option ((ℚ × ℚ) × (ℚ × ℚ))) (L target : ℚ)
  | closeNodes (p q : ℚ × ℚ) (dSq : ℚ)
  | extraNode (b : ℚ × ℚ)
  | openPath (a b : ℚ × ℚ)
  | isolatedNode (p : ℚ × ℚ)
  | anchor (name : String) (pos : ℚ × ℚ)
  | ok
deriving DecidableEq

/-! ### (a) Small segments check -/

/-- Flag condition of check (a):
`(seg_w >= 1 and seg_w <= 9) or (seg_h >= 1 and seg_h <= 9)`. -/
def segSmallFlag (s : Segment) : Bool :=
  (1 ≤ s.width && s.width ≤ 9) || (1 ≤ s.height && s.height ≤ 9)

/-- Issues produced by check (a) for one layer: for each path, for each
segment, flag per `segSmallFlag`, recording the endpoints when both are
retrievable. -/
def smallSegmentIssues (layer : Layer) : List Issue :=
  layer.paths.flatMap (fun p => p.segments.filterMap (fun s =>
    if segSmallFlag s then
      some (match s.fstPt, s.lstPt with
        | some a, some b => Issue.smallSegment (some a) (some b) s.width s.height
        | _, _ => Issue.smallSegment none none s.width s.height)
    else none))

/-- All segments of a layer, in iteration order. -/
def layerSegments (layer : Layer) : List Segment :=
  layer.paths.flatMap (fun p => p.segments)

/-! ### (b) Specific suspicious segment lengths check -/

/-- Python's `abs` on a rational value (an executable absolute value). -/
def rabs (q : ℚ) : ℚ :=
  if q < 0 then -q else q

/-- The target lengths of check (b): `target_lengths = [100, 110, 140, 150]`. -/
def target_lengths : List ℚ := [100, 110, 140, 150]

/-- First target matched by check (b): the loop tests `0 < diff <= 3` with
`diff = abs(seg_length - target)` and breaks at the first hit. -/
def segTargetMatch (L : ℚ) : Option ℚ :=
  target_lengths.find? (fun t => 0 < rabs (L - t) && rabs (L - t) ≤ 3)

/-- Issues produced by check (b) for one layer: segments with undefined
length are skipped; at most one issue per segment (first matching target). -/
def suspiciousLengthIssues (layer : Layer) : List Issue :=
  layer.paths.flatMap (fun p => p.segments.filterMap (fun s =>
    match s.len with
    | none => none
    | some L =>
      (segTargetMatch L).map (fun t =>
        match s.fstPt, s.lstPt with
        | some a, some b => Issue.suspiciousLength (some (a, b)) L t
        | _, _ => Issue.suspiciousLength none L t)))

/-! ### (c) Very close nodes check -/

/-- Squared Euclidean distance, as the code computes it
(`dx*dx + dy*dy`). -/
def distSq (p q : ℚ × ℚ) : ℚ :=
  (q.1 - p.1) * (q.1 - p.1) + (q.2 - p.2) * (q.2 - p.2)

/-- All on-curve node coordinates of a layer, across all paths, in order
(`node.type != "offcurve"`). -/
def oncurvePoints (layer : Layer) : List (ℚ × ℚ) :=
  layer.paths.flatMap (fun p => p.nodes.filterMap (fun n =>
    if n.typ ≠ "offcurve" then some (n.x, n.y) else none))

/-- Issues produced by check (c): brute-force pairs `i < j`
(`for j in range(i+1, n_points)`), flagged when `dist_sq < 9 ** 2`. -/
def closeNodeIssues (layer : Layer) : List Issue :=
  let pts := oncurvePoints layer
  (List.range pts.length).flatMap (fun i =>
    (List.range' (i + 1) (pts.length - (i + 1))).filterMap (fun j =>
      match pts.get? i, pts.get? j with
      | some p, some q =>
        if distSq p q < 81 then some (Issue.closeNodes p q (distSq p q)) else none
      | _, _ => none))

/-! ### (f) Isolated single-node path check -/

/-- Issues produced by check (f): any path with exactly one node. -/
def isolatedIssues (layer : Layer) : List Issue :=
  layer.paths.filterMap (fun p =>
    match p.nodes with
    | [n] => some (Issue.isolatedNode (n.x, n.y))
    | _ => none)

/-! ### (g) Anchors check -/

/-- Display name of an anchor: Python's `anchor.name or "(unnamed)"` treats
both a missing and an empty name as falsy. -/
def anchorDisplayName (a : Anchor) : String :=
  match a.name with
  | none => "(unnamed)"
  | some s => if s = "" then "(unnamed)" else s

/-- Issues produced by check (g): every anchor is reported, by display name
and position. -/
def anchorIssues (layer : Layer) : List Issue :=
  layer.anchors.map (fun a => Issue.anchor (anchorDisplayName a) a.pos)

/-! ### (d) Collinear triple (extra node) check -/

/-- Absolute cross product of AB and BC:
`abs((Bx - Ax) * (Cy - By) - (By - Ay) * (Cx - Bx))`. -/
def crossAbs (A B C : ℚ × ℚ) : ℚ :=
  rabs ((B.1 - A.1) * (C.2 - B.2) - (B.2 - A.2) * (C.1 - B.1))

/-- Collinearity test of check (d): `abs(cross) < 1e-6`. -/
def collTest (A B C : ℚ × ℚ) : Bool :=
  crossAbs A B C < 1 / 1000000

/-- On-curve coordinates of a single path, in order. -/
def oncurveCoords (p : GPath) : List (ℚ × ℚ) :=
  p.nodes.filterMap (fun n => if n.typ ≠ "offcurve" then some (n.x, n.y) else none)

/-- Collinearity of the circular triple starting at index `i` of the
on-curve list: `A = onc[i]`, `B = onc[(i+1) % m]`, `C = onc[(i+2) % m]`
(for `i < m` the code's direct indexing agrees with the `% m` form). -/
def collAtC (l : List (ℚ × ℚ)) (i : ℕ) : Bool :=
  match l.get? (i % l.length), l.get? ((i + 1) % l.length),
      l.get? ((i + 2) % l.length) with
  | some A, some B, some C => collTest A B C
  | _, _, _ => false

/-- Flagged middle points for a closed path: all `m` wrap-around triples. -/
def collinearFlagsClosed (l : List (ℚ × ℚ)) : List (ℚ × ℚ) :=
  (List.range l.length).filterMap (fun i =>
    if collAtC l i then l.get? ((i + 1) % l.length) else none)

/-- Flagged middle points for an open path: the loop `break`s at the first
`i` with `i + 2 >= m`, so only triples with `i + 2 < m` are tested. -/
def collinearFlagsOpen (l : List (ℚ × ℚ)) : List (ℚ × ℚ) :=
  (List.range (l.length - 2)).filterMap (fun i =>
    match l.get? i, l.get? (i + 1), l.get? (i + 2) with
    | some A, some B, some C => if collTest A B C then some B else none
    | _, _, _ => none)

/-- Flagged middle points of check (d) for one path: paths with fewer than 3
on-curve nodes are skipped; closed paths wrap, open paths do not.  The check
operates on the on-curve subsequence only — the code tests coordinate
collinearity without any adjacency condition on the full node list. -/
def collinearFlags (p : GPath) : List (ℚ × ℚ) :=
  let onc := oncurveCoords p
  if onc.length < 3 then []
  else if p.closed then collinearFlagsClosed onc
  else collinearFlagsOpen onc

/-- Issues produced by check (d) for one layer. -/
def collinearIssues (layer : Layer) : List Issue :=
  layer.paths.flatMap (fun p => (collinearFlags p).map (fun b => Issue.extraNode b))

/-- Indices (into the full node list) of the on-curve nodes of a path. -/
def oncurveIdx (p : GPath) : List ℕ :=
  (List.range p.nodes.length).filter (fun i =>
    match p.nodes.get? i with
    | some n => n.typ ≠ "offcurve"
    | none => false)

/-- The collinear check as the specification words it, for refinement
comparison with `collinearFlags`: a triple (A, B, C) of consecutive on-curve
points is evaluated only if B is literally adjacent to A and C to B in the
full point list (indices consecutive modulo the total point count), so that
no off-curve point sits between them. -/
def collinearFlagsSpec (p : GPath) : List (ℚ × ℚ) :=
  let idxs := oncurveIdx p
  let m := idxs.length
  let N := p.nodes.length
  if m < 3 then []
  else
    (List.range (if p.closed then m else m - 2)).filterMap (fun i =>
      match idxs.get? (i % m), idxs.get? ((i + 1) % m), idxs.get? ((i + 2) % m) with
      | some ia, some ib, some ic =>
        if (ib % N == (ia + 1) % N) && (ic % N == (ib + 1) % N) then
          match p.nodes.get? ia, p.nodes.get? ib, p.nodes.get? ic with
          | some A, some B, some C =>
            if collTest (A.x, A.y) (B.x, B.y) (C.x, C.y) then some (B.x, B.y)
            else none
          | _, _, _ => none
        else none
      | _, _, _ => none)

/-! ### (e) Open path check -/

/-- Endpoint resolution of check (e): when the original endpoint is
off-curve, walk `search` for the first on-curve node; when none is found the
loop leaves the original (off-curve) node in place. -/
def resolveEnd (orig : GNode) (search : List GNode) : GNode :=
  if orig.typ = "offcurve" then
    match search.find? (fun n => n.typ ≠ "offcurve") with
    | some n => n
    | none => orig
  else orig

/-- The `abs(node.x) > 1e18` sentinel test of check (e). -/
def bigCoord (n : GNode) : Bool :=
  10 ^ 18 < rabs n.x

/-- Check (e) for one path: `none` when no issue is emitted.  Closed paths,
empty paths and single-node paths are skipped; otherwise the first/last
endpoints are resolved (forward/backward search when off-curve), replaced by
segment boundary points when the coordinate sentinel fires, and the issue is
emitted unless an endpoint ended up unavailable. -/
def openPathIssue (p : GPath) : Option Issue :=
  if p.closed then none
  else if p.nodes.length = 0 then none
  else if p.nodes.length = 1 then none
  else
    match p.nodes.head?, p.nodes.getLast? with
    | some n0, some nL =>
      let lastN := resolveEnd nL p.nodes.reverse
      let firstN := resolveEnd n0 p.nodes
      let firstPt : Option (ℚ × ℚ) :=
        if bigCoord firstN then p.segments.head?.bind (fun s => s.fstPt)
        else some (firstN.x, firstN.y)
      let lastPt : Option (ℚ × ℚ) :=
        if bigCoord lastN then p.segments.getLast?.bind (fun s => s.lstPt)
        else some (lastN.x, lastN.y)
      match firstPt, lastPt with
      | some a, some b => some (Issue.openPath a b)
      | _, _ => none
    | _, _ => none

/-- Issues produced by check (e) for one layer. -/
def openPathIssues (layer : Layer) : List Issue :=
  layer.paths.filterMap openPathIssue

/-! ### Per-glyph analysis and the full run -/

/-- All issues of one layer, in the order the script's checks run:
(a) small segments, (b) suspicious lengths, (c) close nodes, (d) collinear
triples, (e) open paths, (f) isolated nodes, (g) anchors. -/
def glyphIssues (layer : Layer) : List Issue :=
  smallSegmentIssues layer ++ suspiciousLengthIssues layer ++
  closeNodeIssues layer ++ collinearIssues layer ++
  openPathIssues layer ++ isolatedIssues layer ++ anchorIssues layer

/-- The per-glyph report entry: `["OK"]` when no issues were found,
otherwise the issue list itself. -/
def glyphEntry (layer : Layer) : List Issue :=
  let issues := glyphIssues layer
  if issues.length = 0 then [Issue.ok] else issues

/-- The mutable state of the run: the font being read plus the six counters
and the per-glyph report map (an insertion-ordered dictionary). -/
structure AnalysisState where
  font : Font
  count_small_segments : ℕ
  count_suspicious_lengths : ℕ
  count_close_nodes : ℕ
  count_collinear : ℕ
  count_open_paths : ℕ
  count_isolated : ℕ
  issues_by_glyph : List (String × List Issue)

/-- One iteration of the glyph loop: each check appends its issues and bumps
its counter; anchors are counted in the isolated category. -/
def analyzeStep (st : AnalysisState) (g : Glyph) : AnalysisState :=
  let layer := g.layer
  { st with
    count_small_segments :=
      st.count_small_segments + (smallSegmentIssues layer).length
    count_suspicious_lengths :=
      st.count_suspicious_lengths + (suspiciousLengthIssues layer).length
    count_close_nodes := st.count_close_nodes + (closeNodeIssues layer).length
    count_collinear := st.count_collinear + (collinearIssues layer).length
    count_open_paths := st.count_open_paths + (openPathIssues layer).length
    count_isolated :=
      st.count_isolated + (isolatedIssues layer).length + (anchorIssues layer).length
    issues_by_glyph := st.issues_by_glyph ++ [(g.name, glyphEntry layer)] }

/-- The whole per-glyph loop: a fold over `font.glyphs` that only reads the
font and only writes counters and the report map. -/
def runAnalysis (s : AnalysisState) : AnalysisState :=
  s.font.glyphs.foldl analyzeStep s

/-- The state at the start of a run. -/
def initState (font : Font) : AnalysisState :=
  ⟨font, 0, 0, 0, 0, 0, 0, []⟩

/-! ### Grouping glyphs by drawn outline width -/

/-- Python 3 `round` to an integer: nearest, ties to even. -/
def pyRound (q : ℚ) : ℤ :=
  let f := ⌊q⌋
  let r := q - f
  if r < 1 / 2 then f
  else if 1 / 2 < r then f + 1
  else if f % 2 = 0 then f else f + 1

/-- Drawn outline width of a layer: `0` when the layer has no outline,
otherwise `int(round(layer.bounds.size.width))`. -/
def drawnWidth (layer : Layer) : ℤ :=
  match layer.bounds with
  | none => 0
  | some r => pyRound r.w

/-- `d.setdefault(k, []).append(v)` on an insertion-ordered dictionary. -/
def dictAppend (d : List (ℤ × List String)) (k : ℤ) (v : String) :
    List (ℤ × List String) :=
  if d.any (fun kv => kv.1 == k) then
    d.map (fun kv => if kv.1 == k then (kv.1, kv.2 ++ [v]) else kv)
  else d ++ [(k, [v])]

/-- Dictionary lookup. -/
def lookupDict (d : List (ℤ × List String)) (k : ℤ) : Option (List String) :=
  (d.find? (fun kv => kv.1 == k)).map (fun kv => kv.2)

/-- The `width_to_glyphs` grouping pass: every glyph is bucketed under the
integer-rounded bounding-box width of its layer. -/
def width_to_glyphs (font : Font) : List (ℤ × List String) :=
  font.glyphs.foldl (fun d g => dictAppend d (drawnWidth g.layer) g.name) []

/-- Modelled from the spec: the height→glyph-names grouping the
specification claims the report also contains (§4.9); no such grouping is
computed anywhere in `src/validate.py`, whose aggregation pass buckets by
width only.  Bucketing by the integer-rounded bounding-box height,
symmetric to `width_to_glyphs`. -/
def height_to_glyphs (font : Font) : List (ℤ × List String) :=
  font.glyphs.foldl
    (fun d g =>
      dictAppend d
        (match g.layer.bounds with
         | none => 0
         | some r => pyRound r.h) g.name) []

/-- The structured report of one run, exactly the data the script prints:
the six counters, the per-glyph entries, and the single (width) grouping. -/
structure Report where
  counts : ℕ × ℕ × ℕ × ℕ × ℕ × ℕ
  issuesByGlyph : List (String × List Issue)
  widthGroups : List (ℤ × List String)
deriving DecidableEq

/-- The full run: the glyph loop followed by the width grouping pass. -/
def fullReport (font : Font) : Report :=
  let s := runAnalysis (initState font)
  { counts := (s.count_small_segments, s.count_suspicious_lengths,
      s.count_close_nodes, s.count_collinear, s.count_open_paths,
      s.count_isolated)
    issuesByGlyph := s.issues_by_glyph
    widthGroups := width_to_glyphs font }

/-! ### Relaxation (modelled from the spec)

`src/validate.py` contains no relaxation layer; the specification describes
one (a suppression layer for known false positives, §2/§4.4/§4.7/§4.8) as
part of the canonical implementation collapsed from the repository's two
near-duplicate script bodies, of which only one is under `src/`.  The
definitions below model that missing part from the specification's words. -/

/-- Modelled from the spec: an on-curve point tagged with its owning path's
index, `closed` flag and bounding box, as the relaxed close-node check of
§4.4 consumes it. -/
structure TaggedPoint where
  pt : ℚ × ℚ
  pathIdx : ℕ
  pathClosed : Bool
  pathBounds : Option Rect
deriving DecidableEq

/-- Modelled from the spec: all on-curve points of a layer, in order,
tagged with their owning path (§4.4). -/
def taggedOncurve (layer : Layer) : List TaggedPoint :=
  (List.range layer.paths.length).flatMap (fun pi =>
    match layer.paths.get? pi with
    | some p => p.nodes.filterMap (fun n =>
        if n.typ ≠ "offcurve" then some ⟨(n.x, n.y), pi, p.closed, p.bounds⟩
        else none)
    | none => [])

/-- Modelled from the spec: the bounding-box flush test of §4.8 — flush on x
means box-1's max-x equals box-2's min-x (or vice versa), or the two max-x
are equal, or the two min-x are equal; analogously for y; flush when flush
on x or on y. -/
def flushRects (r s : Rect) : Bool :=
  (r.x + r.w == s.x || s.x + s.w == r.x || r.x + r.w == s.x + s.w || r.x == s.x) ||
  (r.y + r.h == s.y || s.y + s.h == r.y || r.y + r.h == s.y + s.h || r.y == s.y)

/-- Modelled from the spec: the flush test lifted to optional bounding
boxes; undefined boxes are never flush. -/
def flushOpt : Option Rect → Option Rect → Bool
  | some r, some s => flushRects r s
  | _, _ => false

/-- Modelled from the spec: the flag condition of the relaxed close-node
check (§4.4) — flag when the squared distance is below 81, unless relaxation
is on, the distance is exactly 0, the two points belong to different paths,
both paths are closed, and the paths' bounding boxes are edge-flush. -/
def closeFlag (relax : Bool) (p q : TaggedPoint) : Bool :=
  distSq p.pt q.pt < 81 &&
  !(relax && (distSq p.pt q.pt == 0) && (p.pathIdx != q.pathIdx) &&
    p.pathClosed && q.pathClosed && flushOpt p.pathBounds q.pathBounds)

/-- Modelled from the spec: the relaxed close-node check over a layer's
tagged on-curve points — the same `i < j` double loop as the source's check
(c), with `closeFlag` as the flag condition; returns the flagged index
pairs. -/
def closePairIdx (relax : Bool) (pts : List TaggedPoint) : List (ℕ × ℕ) :=
  (List.range pts.length).flatMap (fun i =>
    (List.range' (i + 1) (pts.length - (i + 1))).filterMap (fun j =>
      match pts.get? i, pts.get? j with
      | some p, some q => if closeFlag relax p q then some (i, j) else none
      | _, _ => none))

/-- Modelled from the spec: whether an anchor's name matches the relaxation
denylist of expected loose anchor names (§4.7); unnamed anchors never
match. -/
def anchorDenied (denylist : List String) (a : Anchor) : Bool :=
  match a.name with
  | some s => denylist.contains s
  | none => false

/-- Modelled from the spec: check (g) with the relaxation layer of §4.7 —
under relaxation, anchors whose name is on the denylist are suppressed;
every other anchor is reported by display name and coordinate. -/
def anchorIssuesRelaxed (relax : Bool) (denylist : List String) (layer : Layer) :
    List Issue :=
  layer.anchors.filterMap (fun a =>
    if relax && anchorDenied denylist a then none
    else some (Issue.anchor (anchorDisplayName a) a.pos))

/-- The isolated-category counter of the relaxed analysis: single-node paths
and (surviving) anchors share one counter. -/
def isolatedCountRelaxed (relax : Bool) (denylist : List String)
    (layer : Layer) : ℕ :=
  (isolatedIssues layer).length + (anchorIssuesRelaxed relax denylist layer).length

/-! ### Concrete fixtures used by counterexamples and witnesses -/

/-- A closed path whose on-curve points (0,1), (10,1), (20,1) are collinear
but separated by two off-curve handles between (0,1) and (10,1). -/
def exPath1 : GPath :=
  ⟨[⟨0, 1, "line"⟩, ⟨3, 6, "offcurve"⟩, ⟨6, 6, "offcurve"⟩, ⟨10, 1, "curve"⟩,
    ⟨20, 1, "line"⟩], true, [], none⟩

/-- The same on-curve points as `exPath1` with the off-curve handles
removed. -/
def exPath1b : GPath :=
  ⟨[⟨0, 1, "line"⟩, ⟨10, 1, "line"⟩, ⟨20, 1, "line"⟩], true, [], none⟩

/-- A one-glyph layer whose outline bounding box is 100 wide and 200
tall. -/
def exG6 : Glyph :=
  ⟨"A", ⟨[], [], some ⟨0, 0, 100, 200⟩⟩⟩

/-- A one-glyph font for the grouping checks. -/
def exF6 : Font :=
  ⟨[exG6]⟩

/-- A closed path with on-curve points (0,1), (10,1), (20,1), (20,11)
(spec example 4, shifted). -/
def exP8a : GPath :=
  ⟨[⟨0, 1, "line"⟩, ⟨10, 1, "line"⟩, ⟨20, 1, "line"⟩, ⟨20, 11, "line"⟩],
    true, [], none⟩

/-- The node sequence of `exP8a` rotated by one position. -/
def exP8b : GPath :=
  ⟨[⟨10, 1, "line"⟩, ⟨20, 1, "line"⟩, ⟨20, 11, "line"⟩, ⟨0, 1, "line"⟩],
    true, [], none⟩

/-! ### Helper lemmas -/

/-- `rabs` agrees with the mathematical absolute value. -/
lemma rabs_eq_abs (q : ℚ) : rabs q = |q| := by
  rw [rabs]
  by_cases h : q < 0
  · rw [if_pos h, abs_of_neg h]
  · rw [if_neg h, abs_of_nonneg (le_of_not_lt h)]

/-- A `filterMap` whose function is a guarded `some` is a `filter` followed
by a `map`. -/
lemma filterMap_guard_eq_map_filter (p : α → Bool) (f : α → β) (l : List α) :
    (l.filterMap (fun a => if p a then none else some (f a))) =
      (l.filter (fun a => !p a)).map f := by
  induction l with
  | nil => rfl
  | cons a t ih => cases h : p a <;> simp [List.filterMap_cons, List.filter_cons, h, ih]

/-- The Bool flag condition of check (b), as a proposition. -/
lemma segTargetFlag_iff (L t : ℚ) :
    ((0 < rabs (L - t) && rabs (L - t) ≤ 3) = true) ↔
      (0 < |L - t| ∧ |L - t| ≤ 3) := by
  rw [rabs_eq_abs]
  simp [Bool.and_eq_true, decide_eq_true_eq]

/-- `segTargetMatch` unfolded over the concrete target list: the first
matching target wins. -/
lemma segTargetMatch_eq (L : ℚ) : segTargetMatch L =
    if 0 < |L - 100| ∧ |L - 100| ≤ 3 then some 100
    else if 0 < |L - 110| ∧ |L - 110| ≤ 3 then some 110
    else if 0 < |L - 140| ∧ |L - 140| ≤ 3 then some 140
    else if 0 < |L - 150| ∧ |L - 150| ≤ 3 then some 150
    else none := by
  rw [segTargetMatch, target_lengths]
  by_cases h1 : 0 < |L - 100| ∧ |L - 100| ≤ 3
  · rw [List.find?_cons, (segTargetFlag_iff L 100).mpr h1, if_pos h1]
  · rw [List.find?_cons,
      eq_false_of_ne_true (fun hc => h1 ((segTargetFlag_iff L 100).mp hc)), if_neg h1]
    by_cases h2 : 0 < |L - 110| ∧ |L - 110| ≤ 3
    · rw [List.find?_cons, (segTargetFlag_iff L 110).mpr h2, if_pos h2]
    · rw [List.find?_cons,
        eq_false_of_ne_true (fun hc => h2 ((segTargetFlag_iff L 110).mp hc)), if_neg h2]
      by_cases h3 : 0 < |L - 140| ∧ |L - 140| ≤ 3
      · rw [List.find?_cons, (segTargetFlag_iff L 140).mpr h3, if_pos h3]
      · rw [List.find?_cons,
          eq_false_of_ne_true (fun hc => h3 ((segTargetFlag_iff L 140).mp hc)), if_neg h3]
        by_cases h4 : 0 < |L - 150| ∧ |L - 150| ≤ 3
        · rw [List.find?_cons, (segTargetFlag_iff L 150).mpr h4, if_pos h4]
        · rw [List.find?_cons,
            eq_false_of_ne_true (fun hc => h4 ((segTargetFlag_iff L 150).mp hc)), if_neg h4]
          rfl

/-- The flag condition of the (relaxed) close-node check, as a
proposition. -/
lemma closeFlag_iff (relax : Bool) (p q : TaggedPoint) :
    closeFlag relax p q = true ↔
      (distSq p.pt q.pt < 81 ∧
        ¬(relax = true ∧ distSq p.pt q.pt = 0 ∧ p.pathIdx ≠ q.pathIdx ∧
          p.pathClosed = true ∧ q.pathClosed = true ∧
          flushOpt p.pathBounds q.pathBounds = true)) := by
  rw [closeFlag]
  cases relax <;>
    cases hc : p.pathClosed <;>
      cases hd : q.pathClosed <;>
        cases h0 : (distSq p.pt q.pt == 0) <;>
          cases hne : (p.pathIdx != q.pathIdx) <;>
            cases hf : flushOpt p.pathBounds q.pathBounds <;>
              simp_all [beq_iff_eq, bne_iff_ne, decide_eq_true_eq]

/-- Folding `analyzeStep` never changes the font component. -/
lemma foldl_analyzeStep_font (gs : List Glyph) :
    ∀ st : AnalysisState, (List.foldl analyzeStep st gs).font = st.font := by
  induction gs with
  | nil => intro st; rfl
  | cons g t ih => intro st; rw [List.foldl_cons, ih]; rfl

/-- Rotating `range n` is the same as shifting every index by the rotation
amount modulo n. -/
lemma range_rotate_eq_map (n j : ℕ) :
    (List.range n).rotate j = (List.range n).map (fun i => (i + j) % n) := by
  rcases Nat.eq_zero_or_pos n with rfl | hpos
  · simp [List.rotate_nil]
  · refine List.ext_get?_iff.mpr (fun k => ?_)
    by_cases hk : k < n
    · rw [List.get?_rotate (by simpa using hk), List.get?_map, List.length_range]
      rw [List.get?_range (Nat.mod_lt _ hpos), List.get?_range hk]
      rfl
    · rw [List.get?_eq_none.mpr (by simpa using Nat.le_of_not_lt hk),
        List.get?_eq_none.mpr (by simp [Nat.le_of_not_lt hk])]

/-- The circular collinearity test commutes with list rotation. -/
lemma collAtC_rotate (l : List (ℚ × ℚ)) (hl : l ≠ []) (j i : ℕ) :
    collAtC (l.rotate j) i = collAtC l ((i + j) % l.length) := by
  have hpos : 0 < l.length := List.length_pos.mpr hl
  unfold collAtC
  rw [List.length_rotate]
  rw [List.get?_rotate (Nat.mod_lt _ hpos), List.get?_rotate (Nat.mod_lt _ hpos),
    List.get?_rotate (Nat.mod_lt _ hpos)]
  rw [Nat.mod_add_mod, Nat.mod_add_mod, Nat.mod_add_mod]
  rw [Nat.mod_mod_of_dvd _ dvd_rfl]
  rw [Nat.mod_add_mod, Nat.mod_add_mod]
  rw [show i + 1 + j = i + j + 1 from by omega, show i + 2 + j = i + j + 2 from by omega]

/-- The flagged middle points of a rotated closed path are a permutation of
those of the original path. -/
lemma collinearFlagsClosed_rotate_perm (l : List (ℚ × ℚ)) (hl : l ≠ []) (j : ℕ) :
    (collinearFlagsClosed (l.rotate j)).Perm (collinearFlagsClosed l) := by
  have hpos : 0 < l.length := List.length_pos.mpr hl
  have hfun : ∀ i : ℕ,
      (if collAtC (l.rotate j) i then (l.rotate j).get? ((i + 1) % l.length)
        else none) =
      (if collAtC l ((i + j) % l.length) then
        l.get? (((i + j) % l.length + 1) % l.length) else none) := by
    intro i
    rw [collAtC_rotate l hl j i]
    by_cases hc : collAtC l ((i + j) % l.length) = true
    · rw [if_pos hc, if_pos hc, List.get?_rotate (Nat.mod_lt _ hpos),
        Nat.mod_add_mod, Nat.mod_add_mod,
        show i + 1 + j = i + j + 1 from by omega]
    · rw [if_neg hc, if_neg hc]
  rw [collinearFlagsClosed, collinearFlagsClosed, List.length_rotate]
  have e1 : (List.range l.length).filterMap
      (fun i => if collAtC (l.rotate j) i then
        (l.rotate j).get? ((i + 1) % l.length) else none) =
      ((List.range l.length).rotate j).filterMap
        (fun i => if collAtC l i then l.get? ((i + 1) % l.length) else none) := by
    rw [funext hfun, range_rotate_eq_map, List.filterMap_map]
    rfl
  rw [e1]
  exact (List.rotate_perm _ _).filterMap _

/-- A `filterMap` of a rotated list is a rotation of the `filterMap`. -/
lemma filterMap_rotate {α β : Type} (f : α → Option β) (l : List α) (k : ℕ) :
    ∃ j, (l.rotate k).filterMap f = (l.filterMap f).rotate j := by
  rcases eq_or_ne l [] with rfl | hl
  · exact ⟨0, by simp [List.rotate_nil]⟩
  · have hpos : 0 < l.length := List.length_pos.mpr hl
    have hk : k % l.length ≤ l.length := le_of_lt (Nat.mod_lt _ hpos)
    refine ⟨((l.take (k % l.length)).filterMap f).length, ?_⟩
    have hsplit : l.filterMap f =
        (l.take (k % l.length)).filterMap f ++ (l.drop (k % l.length)).filterMap f := by
      rw [← List.filterMap_append, List.take_append_drop]
    rw [← List.rotate_mod, List.rotate_eq_drop_append_take hk, List.filterMap_append]
    rw [hsplit, List.rotate_eq_drop_append_take (by simp), List.drop_left, List.take_left]

/-- Appending a value to a bucket makes it present in that bucket. -/
lemma lookupDict_dictAppend_self : ∀ (d : List (ℤ × List String)) (k : ℤ) (v : String),
    ∃ vs, lookupDict (dictAppend d k v) k = some vs ∧ v ∈ vs := by
  intro d
  induction d with
  | nil => intro k v; exact ⟨[v], by simp [dictAppend, lookupDict], by simp⟩
  | cons a t ih =>
    intro k v
    rw [dictAppend]
    cases ha : (a.1 == k) with
    | true =>
      rw [if_pos (by simp [List.any_cons, ha])]
      simp only [List.map_cons]
      rw [if_pos ha]
      refine ⟨a.2 ++ [v], ?_, by simp⟩
      rw [lookupDict, List.find?_cons_of_pos _ (by exact ha)]
      rfl
    | false =>
      cases ht : t.any (fun kv => kv.1 == k) with
      | true =>
        rw [if_pos (by simp [List.any_cons, ha, ht])]
        simp only [List.map_cons]
        rw [if_neg (by simp [ha])]
        obtain ⟨vs, hvs, hm⟩ := ih k v
        rw [dictAppend, if_pos ht] at hvs
        refine ⟨vs, ?_, hm⟩
        rw [lookupDict, List.find?_cons_of_neg _ (by simp [ha])]
        rw [lookupDict] at hvs
        exact hvs
      | false =>
        rw [if_neg (by simp [List.any_cons, ha, ht])]
        obtain ⟨vs, hvs, hm⟩ := ih k v
        rw [dictAppend, if_neg (by simp [ht])] at hvs
        refine ⟨vs, ?_, hm⟩
        rw [List.cons_append, lookupDict, List.find?_cons_of_neg _ (by simp [ha])]
        rw [lookupDict] at hvs
        exact hvs

/-- Membership in a bucket survives any further `dictAppend`. -/
lemma lookupDict_dictAppend_mono (d : List (ℤ × List String)) (k' : ℤ) (v' : String)
    (k : ℤ) (vs : List String) (v : String)
    (hl : lookupDict d k = some vs) (hm : v ∈ vs) :
    ∃ vs', lookupDict (dictAppend d k' v') k = some vs' ∧ v ∈ vs' := by
  rw [dictAppend]
  by_cases h : d.any (fun kv => kv.1 == k') = true
  · rw [if_pos h]
    have hcomp : ((fun kv : ℤ × List String => kv.1 == k) ∘
        (fun kv : ℤ × List String => if kv.1 == k' then (kv.1, kv.2 ++ [v']) else kv)) =
        (fun kv : ℤ × List String => kv.1 == k) := by
      funext kv
      by_cases hk : (kv.1 == k') = true
      · simp only [Function.comp_apply, if_pos hk]
      · simp only [Function.comp_apply, if_neg hk]
    rw [lookupDict, List.find?_map, hcomp]
    rw [lookupDict] at hl
    rcases hfd : d.find? (fun kv => kv.1 == k) with _ | kv
    · rw [hfd] at hl; simp at hl
    · rw [hfd] at hl
      simp only [Option.map_some'] at hl
      have hl' : kv.2 = vs := Option.some.inj hl
      rw [hfd]
      by_cases hk : (kv.1 == k') = true
      · refine ⟨kv.2 ++ [v'], ?_, by simp [hl', hm]⟩
        simp only [Option.map_some']
        rw [if_pos hk]
      · refine ⟨kv.2, ?_, hl' ▸ hm⟩
        simp only [Option.map_some']
        rw [if_neg hk]
  · rw [if_neg h]
    rw [lookupDict, List.find?_append]
    rw [lookupDict] at hl
    rcases hfd : d.find? (fun kv => kv.1 == k) with _ | kv
    · rw [hfd] at hl; simp at hl
    · rw [hfd] at hl
      rw [hfd]
      exact ⟨vs, by simpa using hl, hm⟩

/-- Bucket membership survives the whole width-grouping fold. -/
lemma lookupDict_widthFold_mono (gs : List Glyph) :
    ∀ (d : List (ℤ × List String)) (k : ℤ) (v : String),
      (∃ vs, lookupDict d k = some vs ∧ v ∈ vs) →
      ∃ vs', lookupDict
          (gs.foldl (fun d g => dictAppend d (drawnWidth g.layer) g.name) d) k =
            some vs' ∧ v ∈ vs' := by
  induction gs with
  | nil => intro d k v h; simpa using h
  | cons g t ih =>
    intro d k v h
    obtain ⟨vs, hl, hm⟩ := h
    rw [List.foldl_cons]
    exact ih _ _ _ (lookupDict_dictAppend_mono _ _ _ _ _ _ hl hm)

/-- Every glyph of the fold ends up in the bucket of its drawn width. -/
lemma lookupDict_widthFold_mem (gs : List Glyph) :
    ∀ (d : List (ℤ × List String)) (g : Glyph), g ∈ gs →
      ∃ vs, lookupDict
          (gs.foldl (fun d g => dictAppend d (drawnWidth g.layer) g.name) d)
          (drawnWidth g.layer) = some vs ∧ g.name ∈ vs := by
  induction gs with
  | nil => intro d g h; simp at h
  | cons g0 t ih =>
    intro d g hg
    rw [List.foldl_cons]
    rcases List.mem_cons.mp hg with rfl | hgt
    · exact lookupDict_widthFold_mono t _ _ _ (lookupDict_dictAppend_self d _ _)
    · exact ih _ g hgt

/-! ### Claim theorems -/

/-- C7: for every segment of every path, the small-segment check flags the
segment exactly once iff its bbox width w satisfies 1 ≤ w ≤ 9 or its bbox
height h satisfies 1 ≤ h ≤ 9 (bounds inclusive); a segment whose bbox is
zero-size in both dimensions is never flagged. -/
theorem c7_smallSegment (layer : Layer) (s : Segment) :
    ((smallSegmentIssues layer).length = (layerSegments layer).countP segSmallFlag) ∧
    (segSmallFlag s = true ↔
      ((1 ≤ s.width ∧ s.width ≤ 9) ∨ (1 ≤ s.height ∧ s.height ≤ 9))) ∧
    (∀ ln fp lp, segSmallFlag ⟨0, 0, ln, fp, lp⟩ = false) := by
  refine ⟨?_, ?_, ?_⟩
  · rw [smallSegmentIssues, layerSegments, ← List.filterMap_flatMap,
      List.length_filterMap_eq_countP]
    refine List.countP_congr (fun s _ => ?_)
    cases h : segSmallFlag s <;> simp [h]
  · simp [segSmallFlag, Bool.or_eq_true, Bool.and_eq_true, decide_eq_true_eq]
  · intro ln fp lp
    simp [segSmallFlag]

/-- C7 witness: the theorem instantiated at a concrete layer with one small
and one degenerate segment. -/
theorem c7_smallSegment_witness :
    ((smallSegmentIssues
        ⟨[⟨[], true, [⟨0, 6, some 6, some (0, 0), some (0, 6)⟩,
           ⟨0, 0, some 0, none, none⟩], none⟩], [], none⟩).length = 1) ∧
    (segSmallFlag ⟨0, 6, some 6, some (0, 0), some (0, 6)⟩ = true) := by
  have h := c7_smallSegment
    ⟨[⟨[], true, [⟨0, 6, some 6, some (0, 0), some (0, 6)⟩,
       ⟨0, 0, some 0, none, none⟩], none⟩], [], none⟩
    ⟨0, 6, some 6, some (0, 0), some (0, 6)⟩
  refine ⟨?_, ?_⟩
  · rw [h.1]; decide
  · exact h.2.1.mpr (by norm_num)

/-- C3 counterexample: the source flags `0 < |L − t| ≤ 3`, not
`1 ≤ |L − t| ≤ 3` — at length L = 100.5 every target differs from L either
by less than 1 or by more than 3, so the claim predicts no flag, yet the
check emits an issue (near 100). -/
theorem c3_counterexample :
    suspiciousLengthIssues
        ⟨[⟨[], false, [⟨50, 50, some (201 / 2), none, none⟩], none⟩], [], none⟩ =
      [Issue.suspiciousLength none (201 / 2) 100] ∧
    |(201 / 2 : ℚ) - 100| < 1 ∧ 0 < |(201 / 2 : ℚ) - 100| ∧
    3 < |(201 / 2 : ℚ) - 110| ∧ 3 < |(201 / 2 : ℚ) - 140| ∧
    3 < |(201 / 2 : ℚ) - 150| := by
  have hP : 0 < |(201 / 2 : ℚ) - 100| ∧ |(201 / 2 : ℚ) - 100| ≤ 3 := by
    rw [show ((201 : ℚ) / 2 - 100) = 1 / 2 by norm_num, abs_of_pos (by norm_num)]
    norm_num
  have hm : segTargetMatch (201 / 2) = some 100 := by
    rw [segTargetMatch_eq, if_pos hP]
  refine ⟨?_, by rw [abs_lt]; norm_num, by rw [abs_pos]; norm_num,
    by rw [lt_abs]; norm_num, by rw [lt_abs]; norm_num, by rw [lt_abs]; norm_num⟩
  simp [suspiciousLengthIssues, hm]

/-- C3 amended: for every segment with a defined length L, the check flags
iff some target t has 0 < |L − t| ≤ 3 (an exact match is not flagged, but a
difference strictly between 0 and 1 is); at most one issue per segment, for
the first matching target in list order. -/
theorem c3_suspiciousLength (L : ℚ) (layer : Layer) :
    ((suspiciousLengthIssues layer).length =
      (layerSegments layer).countP (fun s =>
        match s.len with
        | some L' => (segTargetMatch L').isSome
        | none => false)) ∧
    ((segTargetMatch L).isSome ↔
      ((0 < |L - 100| ∧ |L - 100| ≤ 3) ∨ (0 < |L - 110| ∧ |L - 110| ≤ 3) ∨
       (0 < |L - 140| ∧ |L - 140| ≤ 3) ∨ (0 < |L - 150| ∧ |L - 150| ≤ 3))) ∧
    (segTargetMatch L = some 100 ↔ (0 < |L - 100| ∧ |L - 100| ≤ 3)) ∧
    (segTargetMatch L = some 110 ↔
      (¬(0 < |L - 100| ∧ |L - 100| ≤ 3) ∧ (0 < |L - 110| ∧ |L - 110| ≤ 3))) ∧
    (segTargetMatch L = some 140 ↔
      (¬(0 < |L - 100| ∧ |L - 100| ≤ 3) ∧ ¬(0 < |L - 110| ∧ |L - 110| ≤ 3) ∧
       (0 < |L - 140| ∧ |L - 140| ≤ 3))) ∧
    (segTargetMatch L = some 150 ↔
      (¬(0 < |L - 100| ∧ |L - 100| ≤ 3) ∧ ¬(0 < |L - 110| ∧ |L - 110| ≤ 3) ∧
       ¬(0 < |L - 140| ∧ |L - 140| ≤ 3) ∧ (0 < |L - 150| ∧ |L - 150| ≤ 3))) := by
  constructor
  · rw [suspiciousLengthIssues, layerSegments, ← List.filterMap_flatMap,
      List.length_filterMap_eq_countP]
    refine List.countP_congr (fun s _ => ?_)
    cases s.len <;> simp
  · rw [segTargetMatch_eq]
    split_ifs with h1 h2 h3 h4 <;>
      simp only [Option.isSome_some, Option.isSome_none, Option.some.injEq,
        eq_self_iff_true, Bool.false_eq_true, reduceCtorEq,
        (by norm_num : ¬(100 : ℚ) = 110), (by norm_num : ¬(100 : ℚ) = 140),
        (by norm_num : ¬(100 : ℚ) = 150), (by norm_num : ¬(110 : ℚ) = 100),
        (by norm_num : ¬(110 : ℚ) = 140), (by norm_num : ¬(110 : ℚ) = 150),
        (by norm_num : ¬(140 : ℚ) = 100), (by norm_num : ¬(140 : ℚ) = 110),
        (by norm_num : ¬(140 : ℚ) = 150), (by norm_num : ¬(150 : ℚ) = 100),
        (by norm_num : ¬(150 : ℚ) = 110), (by norm_num : ¬(150 : ℚ) = 140),
        iff_true, true_iff, iff_false, false_iff]
    · exact ⟨Or.inl h1, h1, fun hc => hc.1 h1, fun hc => hc.1 h1, fun hc => hc.1 h1⟩
    · exact ⟨Or.inr (Or.inl h2), h1, ⟨h1, h2⟩, fun hc => hc.2.1 h2,
        fun hc => hc.2.1 h2⟩
    · exact ⟨Or.inr (Or.inr (Or.inl h3)), h1, fun hc => h2 hc.2, ⟨h1, h2, h3⟩,
        fun hc => hc.2.2.1 h3⟩
    · exact ⟨Or.inr (Or.inr (Or.inr h4)), h1, fun hc => h2 hc.2,
        fun hc => h3 hc.2.2, ⟨h1, h2, h3, h4⟩⟩
    · exact ⟨fun hc => hc.elim h1 (fun hcr => hcr.elim h2 (fun hcrr => hcrr.elim h3 h4)),
        h1, fun hc => h2 hc.2, fun hc => h3 hc.2.2, fun hc => h4 hc.2.2.2⟩

/-- C3 witness: the theorem instantiated at L = 111.8 (spec example 2) and a
layer with that single segment: the check flags it, matching target 110. -/
theorem c3_suspiciousLength_witness :
    (suspiciousLengthIssues
        ⟨[⟨[], false, [⟨50, 50, some (559 / 5), none, none⟩], none⟩], [], none⟩).length = 1 ∧
    segTargetMatch (559 / 5) = some 110 := by
  have h := c3_suspiciousLength (559 / 5)
    ⟨[⟨[], false, [⟨50, 50, some (559 / 5), none, none⟩], none⟩], [], none⟩
  have hP100 : ¬(0 < |(559 / 5 : ℚ) - 100| ∧ |(559 / 5 : ℚ) - 100| ≤ 3) := by
    rintro ⟨-, hle⟩
    rw [show ((559 : ℚ) / 5 - 100) = 59 / 5 by norm_num,
      abs_of_pos (by norm_num)] at hle
    norm_num at hle
  have hP110 : 0 < |(559 / 5 : ℚ) - 110| ∧ |(559 / 5 : ℚ) - 110| ≤ 3 := by
    rw [show ((559 : ℚ) / 5 - 110) = 9 / 5 by norm_num, abs_of_pos (by norm_num)]
    norm_num
  have hm : segTargetMatch (559 / 5) = some 110 := by
    rw [segTargetMatch_eq, if_neg hP100, if_pos hP110]
  refine ⟨?_, h.2.2.2.1.mpr ⟨hP100, hP110⟩⟩
  rw [h.1]
  simp [layerSegments, hm]

/-- C4: at the failing input — an open two-node path whose nodes are all
off-curve, so that no on-curve endpoint exists on either side — the check
still emits an "open path" issue, reporting the original off-curve
endpoints, instead of skipping the path as degenerate. -/
theorem c4_openPathDegenerate :
    openPathIssue ⟨[⟨0, 0, "offcurve"⟩, ⟨1, 1, "offcurve"⟩], false, [], none⟩ =
      some (Issue.openPath (0, 0) (1, 1)) ∧
    (([⟨0, 0, "offcurve"⟩, ⟨1, 1, "offcurve"⟩] : List GNode).all
        (fun n => n.typ == "offcurve")) = true := by
  exact ⟨by decide, by decide⟩

/-- C5: under relaxation, anchors whose name is on the denylist produce no
issue and do not count; every other anchor is reported by its display name
(its name, or "(unnamed)" when absent) and coordinate, and the isolated
counter counts single-node paths together with exactly the surviving
anchors. -/
theorem c5_anchorsRelaxed (denylist : List String) (layer : Layer) :
    (anchorIssuesRelaxed true denylist layer =
      (layer.anchors.filter (fun a => !anchorDenied denylist a)).map
        (fun a => Issue.anchor (anchorDisplayName a) a.pos)) ∧
    (isolatedCountRelaxed true denylist layer =
      (isolatedIssues layer).length +
        (layer.anchors.filter (fun a => !anchorDenied denylist a)).length) ∧
    (∀ pos : ℚ × ℚ, anchorDisplayName ⟨none, pos⟩ = "(unnamed)") := by
  have h1 : anchorIssuesRelaxed true denylist layer =
      (layer.anchors.filter (fun a => !anchorDenied denylist a)).map
        (fun a => Issue.anchor (anchorDisplayName a) a.pos) := by
    rw [anchorIssuesRelaxed]
    simpa using
      filterMap_guard_eq_map_filter (fun a => anchorDenied denylist a)
        (fun a => Issue.anchor (anchorDisplayName a) a.pos) layer.anchors
  refine ⟨h1, ?_, fun pos => rfl⟩
  rw [isolatedCountRelaxed, h1, List.length_map]

/-- C2: over a layer's on-curve points (taken across all paths, tagged with
their owning path), a pair (i, j) with i < j is flagged iff its squared
distance is below 81 (distance < 9, coincidence included), unless relaxation
is on, the distance is exactly 0, the points belong to two different paths,
both closed, with edge-flush bounding boxes.  The relaxation branch is
modelled from the spec (§4.4, §4.8); with `relax = false` the condition is
exactly the source's check (c). -/
theorem c2_closeNodes (relax : Bool) (layer : Layer) (i j : ℕ) :
    (i, j) ∈ closePairIdx relax (taggedOncurve layer) ↔
      ∃ p q, (taggedOncurve layer).get? i = some p ∧
        (taggedOncurve layer).get? j = some q ∧ i < j ∧
        distSq p.pt q.pt < 81 ∧
        ¬(relax = true ∧ distSq p.pt q.pt = 0 ∧ p.pathIdx ≠ q.pathIdx ∧
          p.pathClosed = true ∧ q.pathClosed = true ∧
          flushOpt p.pathBounds q.pathBounds = true) := by
  generalize taggedOncurve layer = pts
  rw [closePairIdx]
  simp only [List.mem_flatMap, List.mem_filterMap, List.mem_range, List.mem_range']
  constructor
  · rintro ⟨i', hi', j', ⟨k, hk, hjk⟩, hmatch⟩
    rcases hp : pts.get? i' with _ | p
    · rw [hp] at hmatch; simp at hmatch
    rcases hq : pts.get? j' with _ | q
    · rw [hp, hq] at hmatch; simp at hmatch
    rw [hp, hq] at hmatch
    simp only at hmatch
    by_cases hcf : closeFlag relax p q = true
    · rw [if_pos hcf] at hmatch
      obtain ⟨hii, hjj⟩ : i' = i ∧ j' = j := by
        have := Option.some.inj hmatch
        exact ⟨congrArg Prod.fst this, congrArg Prod.snd this⟩
      subst hii; subst hjj
      obtain ⟨hflag1, hflag2⟩ := (closeFlag_iff relax p q).mp hcf
      exact ⟨p, q, hp, hq, by omega, hflag1, hflag2⟩
    · rw [if_neg hcf] at hmatch; exact absurd hmatch (by simp)
  · rintro ⟨p, q, hp, hq, hij, hflag1, hflag2⟩
    obtain ⟨hilt, -⟩ := List.get?_eq_some.mp hp
    obtain ⟨hjlt, -⟩ := List.get?_eq_some.mp hq
    refine ⟨i, hilt, j, ⟨j - (i + 1), by omega, by omega⟩, ?_⟩
    rw [hp, hq]
    simp only
    rw [if_pos ((closeFlag_iff relax p q).mpr ⟨hflag1, hflag2⟩)]

/-- C9: the analysis is read-only — running the whole per-glyph loop leaves
the font (all paths, nodes, segments, anchors and layers) unchanged; only
the counters and the report map are written. -/
theorem c9_readOnly (s : AnalysisState) : (runAnalysis s).font = s.font := by
  rw [runAnalysis]; exact foldl_analyzeStep_font s.font.glyphs s

/-- C10: a glyph whose layer has at least one anchor always gets a non-empty
issue list as its report entry, never the "OK" sentinel, because every
anchor contributes an issue. -/
theorem c10_anchorsNeverOK (layer : Layer) (h : layer.anchors ≠ []) :
    glyphEntry layer = glyphIssues layer ∧ glyphEntry layer ≠ [Issue.ok] ∧
    glyphEntry layer ≠ [] := by
  obtain ⟨a, ha⟩ := List.exists_mem_of_ne_nil layer.anchors h
  have hmem : Issue.anchor (anchorDisplayName a) a.pos ∈ glyphIssues layer := by
    rw [glyphIssues]
    simp only [List.mem_append]
    right
    exact List.mem_map_of_mem _ ha
  have hne : glyphIssues layer ≠ [] := List.ne_nil_of_mem hmem
  have hlen : ¬(glyphIssues layer).length = 0 := by
    simpa [List.length_eq_zero] using hne
  have hentry : glyphEntry layer = glyphIssues layer := by
    rw [glyphEntry]; simp [hlen]
  refine ⟨hentry, ?_, hentry ▸ hne⟩
  rw [hentry]
  intro heq
  rw [heq] at hmem
  simp at hmem

/-- C6 counterexample: the report produced by the run contains a single
grouping, the width one — on a one-glyph font whose layer is 100 wide and
200 tall the report's grouping maps 100 to the glyph, while the
height→glyph-names mapping the claim asserts (modelled from the spec) would
map 200 to it; the two differ, and the report has no second grouping
component at all. -/
theorem c6_counterexample :
    (fullReport exF6).widthGroups = [(100, [("A" : String)])] ∧
    height_to_glyphs exF6 = [(200, [("A" : String)])] ∧
    (fullReport exF6).widthGroups ≠ height_to_glyphs exF6 := by
  have hw : pyRound (100 : ℚ) = 100 := by norm_num [pyRound]
  have hh : pyRound (200 : ℚ) = 200 := by norm_num [pyRound]
  have h1 : (fullReport exF6).widthGroups = [(100, [("A" : String)])] := by
    show width_to_glyphs exF6 = _
    simp [width_to_glyphs, exF6, exG6, dictAppend, drawnWidth, hw]
  have h2 : height_to_glyphs exF6 = [(200, [("A" : String)])] := by
    simp [height_to_glyphs, exF6, exG6, dictAppend, hh]
  refine ⟨h1, h2, ?_⟩
  rw [h1, h2]
  decide

/-- C6 amended: the aggregation pass produces exactly one grouping, by
width — the report's grouping component is `width_to_glyphs`, every glyph is
bucketed under the integer-rounded bounding-box width of its layer, the
width of a layer without bounds is 0, and no height grouping is computed. -/
theorem c6_widthGrouping (font : Font) :
    ((fullReport font).widthGroups = width_to_glyphs font) ∧
    (∀ paths anchors (r : Rect),
      drawnWidth ⟨paths, anchors, some r⟩ = pyRound r.w) ∧
    (∀ paths anchors, drawnWidth ⟨paths, anchors, none⟩ = 0) ∧
    (∀ g ∈ font.glyphs, ∃ vs,
      lookupDict (width_to_glyphs font) (drawnWidth g.layer) = some vs ∧
      g.name ∈ vs) := by
  refine ⟨rfl, fun paths anchors r => rfl, fun paths anchors => rfl, fun g hg => ?_⟩
  rw [width_to_glyphs]
  exact lookupDict_widthFold_mem font.glyphs [] g hg

/-- C6 amended witness: the one-glyph font, with the glyph found in the
bucket of its drawn width. -/
theorem c6_widthGrouping_witness :
    ∃ vs, lookupDict (width_to_glyphs exF6) (drawnWidth exG6.layer) = some vs ∧
      exG6.name ∈ vs :=
  (c6_widthGrouping exF6).2.2.2 exG6 (by simp [exF6])

/-- C1 counterexample: the source's collinear check has no adjacency guard —
on `exPath1` the triple ((0,1), (10,1), (20,1)) has two off-curve handles
between (0,1) and (10,1) (node index 1 is off-curve), yet all three cyclic
triples are flagged; the spec-worded guarded check would flag only (20,1),
whose triple is literally adjacent in the full point list. -/
theorem c1_counterexample :
    collinearFlags exPath1 = [(10, 1), (20, 1), (0, 1)] ∧
    collinearFlagsSpec exPath1 = [(20, 1)] ∧
    exPath1.nodes.get? 1 = some ⟨3, 6, "offcurve"⟩ := by
  have h1 : collTest (0, 1) (10, 1) (20, 1) = true := by
    norm_num [collTest, crossAbs, rabs]
  have h2 : collTest (10, 1) (20, 1) (0, 1) = true := by
    norm_num [collTest, crossAbs, rabs]
  have h3 : collTest (20, 1) (0, 1) (10, 1) = true := by
    norm_num [collTest, crossAbs, rabs]
  have honc : oncurveCoords exPath1 = [(0, 1), (10, 1), (20, 1)] := by decide
  have hidx : oncurveIdx exPath1 = [0, 3, 4] := by decide
  refine ⟨?_, ?_, by decide⟩
  · rw [collinearFlags, honc]
    norm_num [collinearFlagsClosed, collAtC, h1, h2, h3, exPath1,
      List.range_succ, List.range_zero, List.filterMap_cons, List.filterMap_nil]
  · rw [collinearFlagsSpec, hidx]
    norm_num [exPath1, h1, h2, h3,
      List.range_succ, List.range_zero, List.filterMap_cons, List.filterMap_nil]

/-- C1 amended: the collinear check never consults the full point list — its
result depends only on the path's on-curve subsequence and its closed flag,
so a collinear triple of consecutive on-curve points is flagged even when
off-curve points lie between its members. -/
theorem c1_collinearNoAdjacency (p₁ p₂ : GPath) (hc : p₁.closed = p₂.closed)
    (ho : oncurveCoords p₁ = oncurveCoords p₂) :
    collinearFlags p₁ = collinearFlags p₂ := by
  rw [collinearFlags, collinearFlags, ho, hc]

/-- C1 amended witness: inserting the two off-curve handles of `exPath1`
into the handle-free `exPath1b` does not change the flagged set. -/
theorem c1_collinearNoAdjacency_witness :
    collinearFlags exPath1 = collinearFlags exPath1b :=
  c1_collinearNoAdjacency exPath1 exPath1b rfl (by decide)

/-- C8: for closed paths the collinear check is invariant under rotation of
the path's point sequence — the flagged point multiset (hence the flagged
set and the collinear count) is the same from any starting index, because
the triple walk wraps modulo the on-curve point count. -/
theorem c8_collinearRotation (p₁ p₂ : GPath) (k : ℕ) (h₁ : p₁.closed = true)
    (h₂ : p₂.closed = true) (hn : p₂.nodes = p₁.nodes.rotate k) :
    (collinearFlags p₂).Perm (collinearFlags p₁) ∧
    (collinearFlags p₂).length = (collinearFlags p₁).length := by
  obtain ⟨j, hj⟩ : ∃ j, oncurveCoords p₂ = (oncurveCoords p₁).rotate j := by
    rw [oncurveCoords, oncurveCoords, hn]
    exact filterMap_rotate _ _ k
  have hperm : (collinearFlags p₂).Perm (collinearFlags p₁) := by
    rw [collinearFlags, collinearFlags, h₁, h₂, hj, List.length_rotate]
    by_cases h3 : (oncurveCoords p₁).length < 3
    · rw [if_pos h3, if_pos h3]
    · rw [if_neg h3, if_neg h3, if_pos rfl, if_pos rfl]
      have hne : oncurveCoords p₁ ≠ [] := by
        intro he
        rw [he] at h3
        simp at h3
      exact collinearFlagsClosed_rotate_perm _ hne j
  exact ⟨hperm, hperm.length_eq⟩

/-- C8 witness: the closed square-ish path of spec example 4, rotated by one
position. -/
theorem c8_collinearRotation_witness :
    (collinearFlags exP8b).Perm (collinearFlags exP8a) ∧
    (collinearFlags exP8b).length = (collinearFlags exP8a).length :=
  c8_collinearRotation exP8a exP8b 1 rfl rfl (by decide)

/-- C10 witness: a layer with a single anchor. -/
theorem c10_anchorsNeverOK_witness :
    glyphEntry ⟨[], [⟨some ("top"), (250, 700)⟩], none⟩ ≠ [Issue.ok] ∧
    glyphEntry ⟨[], [⟨some ("top"), (250, 700)⟩], none⟩ ≠ [] := by
  exact (c10_anchorsNeverOK ⟨[], [⟨some ("top"), (250, 700)⟩], none⟩
    (by exact List.cons_ne_nil _ _)).2

end Validate
